import Mathlib

/-!
Shallow embedding of the Monte-Carlo-PAC simulation core
(src/simulations.py and src/stats.py), with theorems checking the
natural-language specification against the code.

Machine reals are modelled by exact rationals; the final annualization
step, a real exponentiation with exponent 1/n_years, is modelled by
Real.rpow on ℝ.  Python exceptions are modelled by Except, and the
random draw of np.random.choice is an explicit oracle argument
constrained by a validity predicate.
-/

namespace MonteCarloPAC

/-- Error kinds raised by the code: the ValueError for portfolio weights
not summing to 100 (simulations.py line 247), the KeyError for a ticker
absent from the data columns (line 252), and the ValueError numpy raises
when reducing an empty list (stats.py line 40). -/
inductive Err where
  | sumNot100 : Err
  | tickerMissing : String → Err
  | emptyStats : Err
deriving DecidableEq

/-- The price table handed to the simulators: number of rows, ordered
column labels, and the closing price of an instrument at a row offset.
Prices are total functions; the row-validity precondition appears as a
hypothesis of the theorems that assume it. -/
structure Table where
  len : ℕ
  columns : List String
  price : String → ℕ → ℚ

/-- data.iloc[i, 0] : the price of the first column at row offset i. -/
def Table.iloc0 (data : Table) (i : ℕ) : ℚ :=
  data.price (data.columns.headD "") i

/-- np.arange over naturals: start, start+step, ... strictly below stop. -/
def arange (start stop step : ℕ) : List ℕ :=
  (List.range ((stop - start + step - 1) / step)).map (fun k => start + step * k)

/-- Insertion of a value into an ascending list, for the sort inside
np.median. -/
def insertLe {α : Type} [LE α] [∀ a b : α, Decidable (a ≤ b)] (x : α) : List α → List α
  | [] => [x]
  | y :: ys => if x ≤ y then x :: y :: ys else y :: insertLe x ys

/-- Ascending insertion sort, modelling the sort inside np.median. -/
def sortLe {α : Type} [LE α] [∀ a b : α, Decidable (a ≤ b)] (l : List α) : List α :=
  l.foldr insertLe []

/-- np.median: the middle element of the ascending sort for odd length,
the mean of the two middle elements for even length. -/
def npMedian {α : Type} [LinearOrderedField α] [∀ a b : α, Decidable (a ≤ b)] (l : List α) : α :=
  let s := sortLe l
  if l.length % 2 = 1 then s.getD (l.length / 2) 0
  else (s.getD (l.length / 2 - 1) 0 + s.getD (l.length / 2) 0) / 2

/-- src/stats.py compute_summary_stats: minimum, maximum, median,
fraction of samples strictly above 0 and fraction strictly above 2.
numpy raises ValueError on an empty list, modelled by the error branch. -/
def compute_summary_stats {α : Type} [LinearOrderedField α]
    [∀ a b : α, Decidable (a ≤ b)] [∀ a b : α, Decidable (a < b)] (returns_list : List α) :
    Except Err (α × α × α × α × α) :=
  match returns_list with
  | [] => .error .emptyStats
  | x :: xs =>
    let min_return := xs.foldl (fun a b => if a ≤ b then a else b) x
    let max_return := xs.foldl (fun a b => if a ≤ b then b else a) x
    let median_return := npMedian (x :: xs)
    let prob_non_negative : α :=
      ((x :: xs).map fun r => if r > 0 then (1 : α) else 0).sum / (((x :: xs).length : ℕ) : α)
    let prob_greater_than_inflation : α :=
      ((x :: xs).map fun r => if r > 2 then (1 : α) else 0).sum / (((x :: xs).length : ℕ) : α)
    .ok (min_return, max_return, median_return, prob_non_negative, prob_greater_than_inflation)

/-- src/simulations.py simulate_single_investment (lines 36-95): invest 100
at the first-column price at the starting point and at every 21st trading
day strictly before the final point, tax positive gross returns at 26
percent, and annualize.  The verbose flag only prints diagnostics. -/
noncomputable def simulate_single_investment (data : Table) (n_years : ℕ)
    (starting_point : ℕ) (verbose : Bool) : ℝ :=
  let final_point := starting_point + 252 * n_years
  let initial_price := data.iloc0 starting_point
  let acc := (arange (starting_point + 21) final_point 21).foldl
    (fun st i => (st.1 + 100, st.2 + 100 / data.iloc0 i))
    ((100 : ℚ), 100 / initial_price)
  let capital := acc.1
  let n_stocks := acc.2
  let final_price := data.iloc0 final_point
  let final_value := n_stocks * final_price
  let average_capital := capital / 2
  let gross_return := (final_value - capital) / average_capital * 100
  let net_return := if gross_return > 0 then 0.74 * gross_return else gross_return
  100 * ((1 + (net_return : ℝ) / 100) ^ ((1 : ℝ) / (n_years : ℝ)) - 1)

/-- The body of the per-instrument loop of simulate_portfolio_returns
(lines 263-277).  The accumulator triple is (total_capital, total_value,
average_capital); the inner fold runs over the purchase offsets and its
triple is (capital, n_stocks, average_capital), the average-capital slot
continuing the running accumulation across instruments. -/
def portfolioStep (data : Table) (final_point : ℕ) (idxs : List ℕ)
    (acc : ℚ × ℚ × ℚ) (tp : String × ℤ) : ℚ × ℚ × ℚ :=
  let allocation : ℚ := 100 * ((tp.2 : ℚ) / 100)
  let inner := idxs.foldl
    (fun st i =>
      (st.1 + allocation, st.2.1 + allocation / data.price tp.1 i,
       st.2.2 + allocation / 2))
    ((0 : ℚ), (0 : ℚ), acc.2.2)
  (acc.1 + inner.1, acc.2.1 + inner.2.1 * data.price tp.1 final_point, inner.2.2)

/-- The accumulation loop of simulate_portfolio_returns (lines 259-277):
aggregate (total_capital, total_value, average_capital) over the
instruments of the composition, purchases every 21 trading days from the
starting point strictly below the final point. -/
def portfolioTotals (data : Table) (n_years starting_point : ℕ)
    (portfolio_composition : List (String × ℤ)) : ℚ × ℚ × ℚ :=
  let final_point := starting_point + 252 * n_years
  portfolio_composition.foldl
    (portfolioStep data final_point (arange starting_point final_point 21)) (0, 0, 0)

/-- The value simulate_portfolio_returns computes once its validation has
passed (lines 254-296): gross return divided by the accumulated
average_capital, 26 percent tax on positive gross returns, annualized. -/
noncomputable def portfolioReturnValue (data : Table) (n_years starting_point : ℕ)
    (portfolio_composition : List (String × ℤ)) : ℝ :=
  let t := portfolioTotals data n_years starting_point portfolio_composition
  let total_capital := t.1
  let total_value := t.2.1
  let average_capital := t.2.2
  let gross_return := (total_value - total_capital) / average_capital * 100
  let net_return := if gross_return > 0 then (1 - 0.26) * gross_return else gross_return
  100 * ((1 + (net_return : ℝ) / 100) ^ ((1 : ℝ) / (n_years : ℝ)) - 1)

/-- src/simulations.py simulate_portfolio_returns (lines 210-296): raises
ValueError when the weights do not sum to 100, then KeyError at the first
ticker missing from the columns, then computes the taxed annualized
return.  The verbose flag only prints diagnostics. -/
noncomputable def simulate_portfolio_returns (data : Table) (n_years starting_point : ℕ)
    (portfolio_composition : List (String × ℤ)) (verbose : Bool) : Except Err ℝ :=
  if (portfolio_composition.map Prod.snd).sum ≠ 100 then .error .sumNot100
  else
    match portfolio_composition.find? (fun tp => !(data.columns.contains tp.1)) with
    | some tp => .error (.tickerMissing tp.1)
    | none => .ok (portfolioReturnValue data n_years starting_point portfolio_composition)

/-- The spec-side comparison definition for the substitution question:
the same computation as portfolioReturnValue except that the
gross-return denominator is the closed form total_capital / 2 instead of
the accumulated average_capital. -/
noncomputable def portfolioReturnValueClosedForm (data : Table) (n_years starting_point : ℕ)
    (portfolio_composition : List (String × ℤ)) : ℝ :=
  let t := portfolioTotals data n_years starting_point portfolio_composition
  let total_capital := t.1
  let total_value := t.2.1
  let gross_return := (total_value - total_capital) / (total_capital / 2) * 100
  let net_return := if gross_return > 0 then (1 - 0.26) * gross_return else gross_return
  100 * ((1 + (net_return : ℝ) / 100) ^ ((1 : ℝ) / (n_years : ℝ)) - 1)

/-- simulate_portfolio_returns with the closed-form denominator
substituted, the comparison target of the substitution question. -/
noncomputable def simulate_portfolio_returns_closedForm (data : Table)
    (n_years starting_point : ℕ) (portfolio_composition : List (String × ℤ))
    (verbose : Bool) : Except Err ℝ :=
  if (portfolio_composition.map Prod.snd).sum ≠ 100 then .error .sumNot100
  else
    match portfolio_composition.find? (fun tp => !(data.columns.contains tp.1)) with
    | some tp => .error (.tickerMissing tp.1)
    | none => .ok (portfolioReturnValueClosedForm data n_years starting_point portfolio_composition)

/-- The advisory condition at line 129 of src/simulations.py: the number
of requested simulations exceeds half the number of rows of the data
(true division); the warning is printed and the computation proceeds. -/
def tooManyTrialsWarning (data : Table) (n_simulations : ℕ) : Bool :=
  decide ((n_simulations : ℚ) > (data.len : ℚ) / 2)

/-- The contract of the np.random.choice draw at lines 136-139: the
extracted starting points are n_simulations pairwise distinct values of
np.arange(0, len(data) - int(252 * n_years)). -/
abbrev drawsValid (data : Table) (n_years n_simulations : ℕ) (pts : List ℕ) : Prop :=
  pts.length = n_simulations ∧ pts.Nodup ∧ ∀ p ∈ pts, p < data.len - 252 * n_years

/-- The validation of lines 245-252 passes: no composition is supplied,
or the weights sum to 100 and every ticker is a column of the data. -/
def weightsOkB (data : Table) (portfolio_composition : Option (List (String × ℤ))) : Bool :=
  match portfolio_composition with
  | none => true
  | some pc =>
      decide ((pc.map Prod.snd).sum = 100) &&
      (pc.find? fun tp => !(data.columns.contains tp.1)).isNone

/-- src/simulations.py simulate_multiple_investments (lines 98-152), the
random draw passed as the explicit list of extracted starting points:
each trial dispatches to simulate_portfolio_returns when a composition is
supplied, else to simulate_single_investment, collecting the returns in
draw order; a raised exception propagates. -/
noncomputable def simulate_multiple_investments (data : Table) (n_years n_simulations : ℕ)
    (portfolio_composition : Option (List (String × ℤ)))
    (extracted_starting_points : List ℕ) : Except Err (List ℝ) :=
  extracted_starting_points.mapM fun starting_point =>
    match portfolio_composition with
    | some pc => simulate_portfolio_returns data n_years starting_point pc false
    | none => .ok (simulate_single_investment data n_years starting_point false)

/-- src/simulations.py simulate_multiple_durations (lines 155-207), the
random draws passed per grid position: one summary-statistics row per
grid entry, computed from that entry's simulated returns, in grid order. -/
noncomputable def simulate_multiple_durations (data : Table) (years_grid : List ℕ)
    (n_simulations : ℕ) (portfolio_composition : Option (List (String × ℤ)))
    (draws : ℕ → List ℕ) : Except Err (List (ℝ × ℝ × ℝ × ℝ × ℝ)) :=
  (List.range years_grid.length).mapM fun i => do
    let returns_list ← simulate_multiple_investments data (years_grid.getD i 0)
      n_simulations portfolio_composition (draws i)
    compute_summary_stats returns_list

/-- A constant-price one-column table with 253 rows, used to instantiate
universally quantified theorems. -/
def flatTable : Table := ⟨253, ["A"], fun _ _ => 1⟩

/-- A constant-price one-column table with 1000 rows. -/
def table1000 : Table := ⟨1000, ["A"], fun _ _ => 1⟩

/-- A two-instrument table with constant prices 2 and 4. -/
def twoColTable : Table := ⟨600, ["A", "B"], fun c _ => if c = "A" then 2 else 4⟩

lemma arange_eval (s y : ℕ) :
    arange s (s + 252 * y) 21 = (List.range (12 * y)).map fun k => s + 21 * k := by
  unfold arange
  rw [show (s + 252 * y - s + 21 - 1) / 21 = 12 * y from by omega]

lemma arange_single_eval (s y : ℕ) (hy : 1 ≤ y) :
    arange (s + 21) (s + 252 * y) 21
      = (List.range (12 * y - 1)).map fun k => s + 21 + 21 * k := by
  unfold arange
  rw [show (s + 252 * y - (s + 21) + 21 - 1) / 21 = 12 * y - 1 from by omega]

lemma foldl_pair (g : ℕ → ℚ) (l : List ℕ) (c n : ℚ) :
    l.foldl (fun st i => (st.1 + 100, st.2 + 100 / g i)) (c, n)
      = (c + 100 * l.length, n + (l.map fun i => 100 / g i).sum) := by
  induction l generalizing c n with
  | nil => simp
  | cons a t ih =>
      simp only [List.foldl_cons, ih, List.map_cons, List.sum_cons, List.length_cons]
      refine Prod.ext ?_ ?_ <;> dsimp only <;> push_cast <;> ring

lemma foldl_triple (g : ℕ → ℚ) (al : ℚ) (l : List ℕ) (c n v : ℚ) :
    l.foldl (fun st i => (st.1 + al, st.2.1 + al / g i, st.2.2 + al / 2)) (c, n, v)
      = (c + al * l.length, n + (l.map fun i => al / g i).sum, v + al / 2 * l.length) := by
  induction l generalizing c n v with
  | nil => simp
  | cons a t ih =>
      simp only [List.foldl_cons, ih, List.map_cons, List.sum_cons, List.length_cons]
      refine Prod.ext ?_ (Prod.ext ?_ ?_) <;> dsimp only <;> push_cast <;> ring

lemma portfolioStep_eval (data : Table) (fp : ℕ) (idxs : List ℕ)
    (acc : ℚ × ℚ × ℚ) (tp : String × ℤ) :
    portfolioStep data fp idxs acc tp
      = (acc.1 + 100 * ((tp.2 : ℚ) / 100) * idxs.length,
         acc.2.1 + (idxs.map fun i => 100 * ((tp.2 : ℚ) / 100) / data.price tp.1 i).sum
           * data.price tp.1 fp,
         acc.2.2 + 100 * ((tp.2 : ℚ) / 100) / 2 * idxs.length) := by
  simp only [portfolioStep]
  rw [foldl_triple]
  refine Prod.ext ?_ (Prod.ext ?_ ?_) <;> dsimp only <;> ring

lemma foldl_portfolioStep_half (data : Table) (fp : ℕ) (idxs : List ℕ)
    (l : List (String × ℤ)) (c v a : ℚ) (h : a = c / 2) :
    (l.foldl (portfolioStep data fp idxs) (c, v, a)).2.2
      = (l.foldl (portfolioStep data fp idxs) (c, v, a)).1 / 2 := by
  induction l generalizing c v a with
  | nil => simpa using h
  | cons hd tl ih =>
      rw [List.foldl_cons, portfolioStep_eval]
      dsimp only
      exact ih _ _ _ (by rw [h]; ring)

lemma portfolioTotals_avg_half (data : Table) (y s : ℕ) (pc : List (String × ℤ)) :
    (portfolioTotals data y s pc).2.2 = (portfolioTotals data y s pc).1 / 2 := by
  unfold portfolioTotals
  exact foldl_portfolioStep_half _ _ _ _ 0 0 0 (by norm_num)

lemma portfolioValue_eq_closed (data : Table) (y s : ℕ) (pc : List (String × ℤ)) :
    portfolioReturnValue data y s pc = portfolioReturnValueClosedForm data y s pc := by
  simp only [portfolioReturnValue, portfolioReturnValueClosedForm, portfolioTotals_avg_half]

lemma portfolio_eq_closed (data : Table) (y s : ℕ) (pc : List (String × ℤ)) (v : Bool) :
    simulate_portfolio_returns data y s pc v
      = simulate_portfolio_returns_closedForm data y s pc v := by
  unfold simulate_portfolio_returns simulate_portfolio_returns_closedForm
  split
  · rfl
  · split
    · rfl
    · rw [portfolioValue_eq_closed]

lemma range_map_sum_shift (f : ℕ → ℚ) (n : ℕ) :
    ((List.range (n + 1)).map f).sum = f 0 + ((List.range n).map fun k => f (k + 1)).sum := by
  rw [List.range_succ_eq_map]
  simp [List.map_map, Function.comp_def, Nat.succ_eq_add_one]

lemma single_acc_eval (data : Table) (y s : ℕ) (hy : 1 ≤ y) :
    (arange (s + 21) (s + 252 * y) 21).foldl
        (fun st i => (st.1 + 100, st.2 + 100 / data.iloc0 i))
        ((100 : ℚ), 100 / data.iloc0 s)
      = (100 * ((12 * y : ℕ) : ℚ),
         ((List.range (12 * y)).map fun k => 100 / data.iloc0 (s + 21 * k)).sum) := by
  obtain ⟨m, hm⟩ : ∃ m, 12 * y = m + 1 := ⟨12 * y - 1, by omega⟩
  rw [arange_single_eval s y hy, hm, Nat.add_sub_cancel, List.foldl_map]
  rw [foldl_pair, range_map_sum_shift, List.length_range]
  refine Prod.ext ?_ ?_ <;> dsimp only
  · push_cast
    ring
  · congr 1
    refine congrArg List.sum (List.map_congr_left fun a _ => ?_)
    rw [show s + 21 * (a + 1) = s + 21 + 21 * a from by ring]

lemma single_value_eval (data : Table) (y s : ℕ) (hy : 1 ≤ y) (v : Bool) :
    simulate_single_investment data y s v
      = (let C : ℚ := 100 * ((12 * y : ℕ) : ℚ)
         let S : ℚ := ((List.range (12 * y)).map fun k => 100 / data.iloc0 (s + 21 * k)).sum
         let g : ℚ := (S * data.iloc0 (s + 252 * y) - C) / (C / 2) * 100
         let net := if g > 0 then 0.74 * g else g
         100 * ((1 + (net : ℝ) / 100) ^ ((1 : ℝ) / (y : ℝ)) - 1)) := by
  simp only [simulate_single_investment, single_acc_eval data y s hy]

lemma portfolioTotals_single (data : Table) (T : String) (y s : ℕ) :
    portfolioTotals data y s [(T, 100)]
      = (100 * ((12 * y : ℕ) : ℚ),
         ((List.range (12 * y)).map fun k => 100 / data.price T (s + 21 * k)).sum
           * data.price T (s + 252 * y),
         50 * ((12 * y : ℕ) : ℚ)) := by
  unfold portfolioTotals
  rw [List.foldl_cons, List.foldl_nil, portfolioStep_eval, arange_eval]
  simp only [List.length_map, List.length_range, List.map_map, Function.comp_def]
  refine Prod.ext ?_ (Prod.ext ?_ ?_) <;> dsimp only <;> norm_num

lemma portfolioValue_single (data : Table) (T : String) (y s : ℕ) (hy : 1 ≤ y)
    (hcols : data.columns = [T]) (v : Bool) :
    portfolioReturnValue data y s [(T, 100)] = simulate_single_investment data y s v := by
  have hil : data.iloc0 = data.price T := by
    funext i
    rw [Table.iloc0, hcols]
    rfl
  rw [single_value_eval data y s hy v]
  simp only [portfolioReturnValue, portfolioTotals_single, hil]
  rw [show ((100 : ℚ) * ((12 * y : ℕ) : ℚ)) / 2 = 50 * ((12 * y : ℕ) : ℚ) from by ring,
      show (1 - 0.26 : ℚ) = 0.74 from by norm_num]

lemma mapM_ok_of_forall {β γ : Type} (f : β → Except Err γ) (g : β → γ) (l : List β)
    (h : ∀ b ∈ l, f b = .ok (g b)) : l.mapM f = .ok (l.map g) := by
  induction l with
  | nil => rfl
  | cons a t ih =>
      rw [List.mapM_cons, h a (List.mem_cons_self a t),
        ih fun b hb => h b (List.mem_cons_of_mem a hb)]
      rfl

lemma simulate_portfolio_returns_ok (data : Table) (y s : ℕ) (pc : List (String × ℤ))
    (v : Bool) (h1 : (pc.map Prod.snd).sum = 100)
    (h2 : pc.find? (fun tp => !(data.columns.contains tp.1)) = none) :
    simulate_portfolio_returns data y s pc v = .ok (portfolioReturnValue data y s pc) := by
  unfold simulate_portfolio_returns
  rw [if_neg (not_not_intro h1), h2]

lemma multiple_investments_ok (data : Table) (y n : ℕ)
    (pc : Option (List (String × ℤ))) (pts : List ℕ)
    (hw : weightsOkB data pc = true) :
    simulate_multiple_investments data y n pc pts
      = .ok (pts.map fun starting_point =>
          match pc with
          | some w => portfolioReturnValue data y starting_point w
          | none => simulate_single_investment data y starting_point false) := by
  unfold simulate_multiple_investments
  refine mapM_ok_of_forall _ _ _ fun s _ => ?_
  cases pc with
  | none => rfl
  | some w =>
      simp only [weightsOkB, Bool.and_eq_true, decide_eq_true_eq,
        Option.isNone_iff_eq_none] at hw
      exact simulate_portfolio_returns_ok data y s w false hw.1 hw.2

lemma ite_mask_sum_nonneg {α : Type} [LinearOrderedField α] (P : α → Prop)
    [DecidablePred P] (l : List α) :
    0 ≤ (l.map fun r => if P r then (1 : α) else 0).sum := by
  induction l with
  | nil => simp
  | cons a t ih =>
      simp only [List.map_cons, List.sum_cons]
      split <;> linarith

lemma ite_mask_sum_le_length {α : Type} [LinearOrderedField α] (P : α → Prop)
    [DecidablePred P] (l : List α) :
    (l.map fun r => if P r then (1 : α) else 0).sum ≤ l.length := by
  induction l with
  | nil => simp
  | cons a t ih =>
      simp only [List.map_cons, List.sum_cons, List.length_cons]
      push_cast
      split <;> linarith

lemma compute_summary_stats_cons {α : Type} [LinearOrderedField α]
    [∀ a b : α, Decidable (a ≤ b)] [∀ a b : α, Decidable (a < b)] (x : α) (xs : List α) :
    ∃ row : α × α × α × α × α,
      compute_summary_stats (x :: xs) = .ok row ∧
      0 ≤ row.2.2.2.1 ∧ row.2.2.2.1 ≤ 1 ∧ 0 ≤ row.2.2.2.2 ∧ row.2.2.2.2 ≤ 1 := by
  refine ⟨_, rfl, ?_, ?_, ?_, ?_⟩ <;> dsimp only
  · exact div_nonneg (ite_mask_sum_nonneg _ _) (Nat.cast_nonneg _)
  · exact div_le_one_of_le₀
      (le_trans (ite_mask_sum_le_length _ _) (by rfl)) (Nat.cast_nonneg _)
  · exact div_nonneg (ite_mask_sum_nonneg _ _) (Nat.cast_nonneg _)
  · exact div_le_one_of_le₀
      (le_trans (ite_mask_sum_le_length _ _) (by rfl)) (Nat.cast_nonneg _)

lemma getD_map_range {γ : Type} (g : ℕ → γ) (D i : ℕ) (hi : i < D) (z : γ) :
    (((List.range D).map g).getD i z) = g i := by
  rw [List.getD_eq_getElem?_getD, List.getElem?_map, List.getElem?_range hi]
  rfl

/-- Claim C2, amended: in simulate_portfolio_returns the average-capital
denominator is accumulated as one half-contribution per instrument per
purchase event, and in exact arithmetic this running accumulation equals
the closed form total_capital / 2, so substituting the closed form for
the accumulation does not change the returned result. -/
theorem claim_C2 (data : Table) (n_years starting_point : ℕ)
    (portfolio_composition : List (String × ℤ)) (verbose : Bool) :
    (portfolioTotals data n_years starting_point portfolio_composition).2.2
      = (portfolioTotals data n_years starting_point portfolio_composition).1 / 2 ∧
    simulate_portfolio_returns data n_years starting_point portfolio_composition verbose
      = simulate_portfolio_returns_closedForm data n_years starting_point
          portfolio_composition verbose :=
  ⟨portfolioTotals_avg_half data n_years starting_point portfolio_composition,
   portfolio_eq_closed data n_years starting_point portfolio_composition verbose⟩

/-- Claim C2 counterexample: at a concrete two-instrument 60/40 input the
returned result with the accumulated denominator and the returned result
with the closed form total_capital / 2 substituted are equal, so the
substitution does not change the returned result as the claim asserts. -/
theorem claim_C2_counterexample :
    simulate_portfolio_returns twoColTable 1 0 [("A", 60), ("B", 40)] false
      = simulate_portfolio_returns_closedForm twoColTable 1 0 [("A", 60), ("B", 40)] false :=
  portfolio_eq_closed twoColTable 1 0 [("A", 60), ("B", 40)] false

/-- Claim C3: for years > 0 and a valid final row index, the single-asset
simulator returns 100 * ((1 + net/100)^(1/years) - 1), with purchases of
100 at each of the floor(252*years/21) events at offsets start + 21*k,
the share count the sum of 100/price over those events, the final value
the share count times the price at start + floor(252*years), the gross
return (final_value - total_capital)/(total_capital/2)*100, and the net
return taxed by the factor 0.74 exactly when the gross return is
strictly positive. -/
theorem claim_C3 (data : Table) (n_years starting_point : ℕ) (verbose : Bool)
    (hy : 1 ≤ n_years) (hs : starting_point + 252 * n_years < data.len) :
    simulate_single_investment data n_years starting_point verbose
      = (let events := 252 * n_years / 21
         let total_capital : ℚ := 100 * ((events : ℕ) : ℚ)
         let n_stocks : ℚ :=
           ((List.range events).map fun k =>
             100 / data.iloc0 (starting_point + 21 * k)).sum
         let final_value : ℚ := n_stocks * data.iloc0 (starting_point + 252 * n_years)
         let gross_return := (final_value - total_capital) / (total_capital / 2) * 100
         let net_return := if gross_return > 0 then 0.74 * gross_return else gross_return
         100 * ((1 + (net_return : ℝ) / 100) ^ ((1 : ℝ) / (n_years : ℝ)) - 1)) := by
  rw [single_value_eval data n_years starting_point hy verbose]
  simp only [show (252 * n_years / 21 : ℕ) = 12 * n_years from by omega]

/-- Claim C3 witness: the theorem instantiated on a 253-row constant
table with one year starting at row 0. -/
theorem claim_C3_witness :
    (1 ≤ 1 ∧ 0 + 252 * 1 < flatTable.len) ∧
    simulate_single_investment flatTable 1 0 false
      = (let events := 252 * 1 / 21
         let total_capital : ℚ := 100 * ((events : ℕ) : ℚ)
         let n_stocks : ℚ :=
           ((List.range events).map fun k => 100 / flatTable.iloc0 (0 + 21 * k)).sum
         let final_value : ℚ := n_stocks * flatTable.iloc0 (0 + 252 * 1)
         let gross_return := (final_value - total_capital) / (total_capital / 2) * 100
         let net_return := if gross_return > 0 then 0.74 * gross_return else gross_return
         100 * ((1 + (net_return : ℝ) / 100) ^ ((1 : ℝ) / ((1 : ℕ) : ℝ)) - 1)) :=
  ⟨⟨le_refl 1, by decide⟩, claim_C3 flatTable 1 0 false (le_refl 1) (by decide)⟩

/-- Claim C4: the two concrete evaluations of compute_summary_stats from
the specification; the fourth component counts only samples strictly
greater than 0 and the fifth only samples strictly greater than 2. -/
theorem claim_C4 :
    compute_summary_stats ([1, 2.5, -0.5, 3, 4] : List ℚ) = .ok (-0.5, 4, 2.5, 0.8, 0.6) ∧
    compute_summary_stats ([0, 2, 2, 3, -1] : List ℚ) = .ok (-1, 3, 2, 0.6, 0.2) := by
  constructor <;> norm_num [compute_summary_stats, npMedian, sortLe, insertLe]

/-- Claim C5: when the weights do not sum to 100 the portfolio simulator
fails with the ValueError for every table, hence before any price lookup;
when the weights sum to 100 but a ticker is missing from the columns it
fails with the KeyError naming the first missing ticker, again for every
price function; and the two error kinds are distinct constructors. -/
theorem claim_C5 (data : Table) (n_years starting_point : ℕ)
    (portfolio_composition : List (String × ℤ)) (verbose : Bool) :
    ((portfolio_composition.map Prod.snd).sum ≠ 100 →
      simulate_portfolio_returns data n_years starting_point portfolio_composition verbose
        = .error .sumNot100) ∧
    (∀ tp : String × ℤ, (portfolio_composition.map Prod.snd).sum = 100 →
      portfolio_composition.find? (fun q => !(data.columns.contains q.1)) = some tp →
      simulate_portfolio_returns data n_years starting_point portfolio_composition verbose
        = .error (.tickerMissing tp.1)) ∧
    (∀ s : String, (Err.sumNot100 : Err) ≠ Err.tickerMissing s) := by
  refine ⟨fun h => ?_, fun tp h1 h2 => ?_, fun s h => Err.noConfusion h⟩
  · unfold simulate_portfolio_returns
    rw [if_pos h]
  · unfold simulate_portfolio_returns
    rw [if_neg (not_not_intro h1), h2]

/-- Claim C5 witness: weights summing to 101 produce the ValueError and a
missing ticker with a correct sum produces the KeyError naming it. -/
theorem claim_C5_witness :
    simulate_portfolio_returns twoColTable 1 0 [("A", 60), ("B", 41)] false
      = .error .sumNot100 ∧
    simulate_portfolio_returns twoColTable 1 0 [("C", 60), ("A", 40)] false
      = .error (.tickerMissing "C") :=
  ⟨(claim_C5 twoColTable 1 0 [("A", 60), ("B", 41)] false).1 (by decide),
   (claim_C5 twoColTable 1 0 [("C", 60), ("A", 40)] false).2.1 ("C", 60)
     (by decide) (by decide)⟩

/-- Claim C8: on a one-column table the portfolio simulator with the
single weight 100 returns, in exact arithmetic, exactly the value of the
single-asset simulator: same purchase offsets, same contributions, same
half-total denominator, same tax on positive gross return, and the same
annualization. -/
theorem claim_C8 (data : Table) (T : String) (n_years starting_point : ℕ) (verbose : Bool)
    (hcols : data.columns = [T]) (hy : 1 ≤ n_years)
    (hs : starting_point + 252 * n_years < data.len) :
    simulate_portfolio_returns data n_years starting_point [(T, 100)] verbose
      = .ok (simulate_single_investment data n_years starting_point verbose) := by
  have h2 : ([(T, 100)] : List (String × ℤ)).find?
      (fun tp => !(data.columns.contains tp.1)) = none := by
    rw [hcols]
    simp [List.find?]
  rw [simulate_portfolio_returns_ok data n_years starting_point [(T, 100)] verbose
      (by simp) h2,
    portfolioValue_single data T n_years starting_point hy hcols verbose]

/-- Claim C8 witness: the theorem instantiated on the 253-row constant
one-column table. -/
theorem claim_C8_witness :
    (flatTable.columns = ["A"] ∧ 1 ≤ 1 ∧ 0 + 252 * 1 < flatTable.len) ∧
    simulate_portfolio_returns flatTable 1 0 [("A", 100)] false
      = .ok (simulate_single_investment flatTable 1 0 false) :=
  ⟨⟨rfl, le_refl 1, by decide⟩, claim_C8 flatTable "A" 1 0 false rfl (le_refl 1) (by decide)⟩

/-- Claim C9: the verbose flag of both simulators only prints diagnostics
and the returned value is identical under verbose and silent calls. -/
theorem claim_C9 (data : Table) (n_years starting_point : ℕ)
    (portfolio_composition : List (String × ℤ)) :
    simulate_single_investment data n_years starting_point true
      = simulate_single_investment data n_years starting_point false ∧
    simulate_portfolio_returns data n_years starting_point portfolio_composition true
      = simulate_portfolio_returns data n_years starting_point portfolio_composition false :=
  ⟨rfl, rfl⟩

/-- Claim C10: summarizing an empty sample list fails with the
empty-input error and never returns a placeholder 5-tuple. -/
theorem claim_C10 :
    compute_summary_stats ([] : List ℝ) = .error .emptyStats ∧
    ∀ row : ℝ × ℝ × ℝ × ℝ × ℝ, compute_summary_stats ([] : List ℝ) ≠ .ok row :=
  ⟨rfl, fun _ h => Except.noConfusion h⟩

/-- Claim C1 counterexample: with 1000 rows and one year, 400 trials
exceeds half of the valid start-index range 1000 - 252 = 748, yet the
advisory condition of the code, which compares the number of trials
against half of len(data), is not triggered. -/
theorem claim_C1_counterexample :
    tooManyTrialsWarning table1000 400 = false ∧
    ((1000 : ℚ) - 252 * 1) / 2 < 400 := by
  constructor
  · simp only [tooManyTrialsWarning, table1000, gt_iff_lt, decide_eq_false_iff_not, not_lt]
    norm_num
  · norm_num

/-- Claim C1, amended: the advisory is triggered exactly when n_trials
exceeds half of len(data), independently of the duration; it is a
warning, not a failure: for every valid draw of n_trials distinct start
indices, and valid weights when supplied, the call still returns a list
of exactly n_trials return samples. -/
theorem claim_C1 (data : Table) (n_years n_simulations : ℕ)
    (portfolio_composition : Option (List (String × ℤ))) (pts : List ℕ)
    (hd : drawsValid data n_years n_simulations pts)
    (hw : weightsOkB data portfolio_composition = true) :
    (tooManyTrialsWarning data n_simulations = true
      ↔ (data.len : ℚ) / 2 < (n_simulations : ℚ)) ∧
    ∃ l : List ℝ,
      simulate_multiple_investments data n_years n_simulations portfolio_composition pts
        = .ok l ∧ l.length = n_simulations := by
  refine ⟨by simp [tooManyTrialsWarning, gt_iff_lt], ?_⟩
  refine ⟨_, multiple_investments_ok data n_years n_simulations portfolio_composition pts hw, ?_⟩
  rw [List.length_map, hd.1]

/-- Claim C1 witness: the amended theorem instantiated on the 253-row
constant table with one trial drawn at index 0. -/
theorem claim_C1_witness :
    (drawsValid flatTable 1 1 [0] ∧ weightsOkB flatTable none = true) ∧
    ((tooManyTrialsWarning flatTable 1 = true ↔ (flatTable.len : ℚ) / 2 < (1 : ℚ)) ∧
     ∃ l : List ℝ, simulate_multiple_investments flatTable 1 1 none [0] = .ok l ∧
       l.length = 1) :=
  ⟨⟨by decide, rfl⟩, claim_C1 flatTable 1 1 none [0] (by decide) rfl⟩

/-- Claim C6: for a draw of n_trials pairwise distinct starting points
from the valid range, simulate_multiple_investments returns one
annualized return per drawn index, in draw order; when a composition is
supplied each entry is the value that simulate_portfolio_returns wraps
in ok, otherwise each entry is simulate_single_investment at the drawn
index. -/
theorem claim_C6 (data : Table) (n_years n_simulations : ℕ)
    (portfolio_composition : Option (List (String × ℤ))) (pts : List ℕ)
    (hd : drawsValid data n_years n_simulations pts)
    (hw : weightsOkB data portfolio_composition = true) :
    simulate_multiple_investments data n_years n_simulations portfolio_composition pts
      = .ok (pts.map fun starting_point =>
          match portfolio_composition with
          | some w => portfolioReturnValue data n_years starting_point w
          | none => simulate_single_investment data n_years starting_point false) ∧
    (∀ w, portfolio_composition = some w → ∀ p : ℕ,
      simulate_portfolio_returns data n_years p w false
        = .ok (portfolioReturnValue data n_years p w)) ∧
    (pts.map fun starting_point =>
          match portfolio_composition with
          | some w => portfolioReturnValue data n_years starting_point w
          | none => simulate_single_investment data n_years starting_point false).length
      = n_simulations := by
  refine ⟨multiple_investments_ok data n_years n_simulations portfolio_composition pts hw,
    ?_, ?_⟩
  · rintro w rfl p
    simp only [weightsOkB, Bool.and_eq_true, decide_eq_true_eq,
      Option.isNone_iff_eq_none] at hw
    exact simulate_portfolio_returns_ok data n_years p w false hw.1 hw.2
  · rw [List.length_map, hd.1]

/-- Claim C6 witness: the theorem instantiated on the 253-row constant
table with one trial at index 0 and the single-ticker composition. -/
theorem claim_C6_witness :
    (drawsValid flatTable 1 1 [0] ∧ weightsOkB flatTable (some [("A", 100)]) = true) ∧
    (simulate_multiple_investments flatTable 1 1 (some [("A", 100)]) [0]
        = .ok [portfolioReturnValue flatTable 1 0 [("A", 100)]] ∧
     (∀ w, (some [("A", 100)] : Option (List (String × ℤ))) = some w → ∀ p : ℕ,
        simulate_portfolio_returns flatTable 1 p w false
          = .ok (portfolioReturnValue flatTable 1 p w)) ∧
     ([0].map fun p => portfolioReturnValue flatTable 1 p [("A", 100)]).length = 1) :=
  ⟨⟨by decide, by decide⟩,
   claim_C6 flatTable 1 1 (some [("A", 100)]) [0] (by decide) (by decide)⟩

/-- Claim C7: for a duration grid of length D and at least one trial per
duration, simulate_multiple_durations returns D rows in grid order, the
i-th row being compute_summary_stats of the return list simulated for
the i-th grid entry, and the fourth and fifth components of every row
lie in the interval from 0 to 1. -/
theorem claim_C7 (data : Table) (years_grid : List ℕ) (n_simulations : ℕ)
    (portfolio_composition : Option (List (String × ℤ))) (draws : ℕ → List ℕ)
    (hn : 1 ≤ n_simulations)
    (hd : ∀ i, i < years_grid.length →
      drawsValid data (years_grid.getD i 0) n_simulations (draws i))
    (hw : weightsOkB data portfolio_composition = true) :
    ∃ rows : List (ℝ × ℝ × ℝ × ℝ × ℝ),
      simulate_multiple_durations data years_grid n_simulations portfolio_composition draws
        = .ok rows ∧
      rows.length = years_grid.length ∧
      ∀ i, i < years_grid.length →
        ∃ returns_list : List ℝ,
          simulate_multiple_investments data (years_grid.getD i 0) n_simulations
              portfolio_composition (draws i) = .ok returns_list ∧
          compute_summary_stats returns_list = .ok (rows.getD i (0, 0, 0, 0, 0)) ∧
          0 ≤ (rows.getD i (0, 0, 0, 0, 0)).2.2.2.1 ∧
          (rows.getD i (0, 0, 0, 0, 0)).2.2.2.1 ≤ 1 ∧
          0 ≤ (rows.getD i (0, 0, 0, 0, 0)).2.2.2.2 ∧
          (rows.getD i (0, 0, 0, 0, 0)).2.2.2.2 ≤ 1 := by
  have hsim : ∀ i,
      simulate_multiple_investments data (years_grid.getD i 0) n_simulations
          portfolio_composition (draws i)
        = .ok ((draws i).map fun p =>
            match portfolio_composition with
            | some w => portfolioReturnValue data (years_grid.getD i 0) p w
            | none => simulate_single_investment data (years_grid.getD i 0) p false) :=
    fun i => multiple_investments_ok data _ n_simulations portfolio_composition (draws i) hw
  set ret : ℕ → List ℝ := fun i => (draws i).map fun p =>
      match portfolio_composition with
      | some w => portfolioReturnValue data (years_grid.getD i 0) p w
      | none => simulate_single_investment data (years_grid.getD i 0) p false with hret
  set g : ℕ → ℝ × ℝ × ℝ × ℝ × ℝ :=
    fun i => (compute_summary_stats (ret i)).toOption.getD (0, 0, 0, 0, 0) with hg
  have hstat : ∀ i, i < years_grid.length →
      compute_summary_stats (ret i) = .ok (g i) ∧
      0 ≤ (g i).2.2.2.1 ∧ (g i).2.2.2.1 ≤ 1 ∧ 0 ≤ (g i).2.2.2.2 ∧ (g i).2.2.2.2 ≤ 1 := by
    intro i hi
    obtain ⟨x, xs, hxx⟩ : ∃ x xs, ret i = x :: xs := by
      cases hcase : ret i with
      | nil =>
          exfalso
          have hlen : (ret i).length = n_simulations := by
            rw [hret]
            dsimp only
            rw [List.length_map, (hd i hi).1]
          rw [hcase] at hlen
          simp at hlen
          omega
      | cons a t => exact ⟨a, t, rfl⟩
    obtain ⟨row, hrow, b1, b2, b3, b4⟩ := compute_summary_stats_cons x xs
    have hok : compute_summary_stats (ret i) = .ok row := by rw [hxx]; exact hrow
    have hgr : g i = row := by rw [hg]; dsimp only; rw [hok]; rfl
    rw [hgr]
    exact ⟨hok, b1, b2, b3, b4⟩
  refine ⟨(List.range years_grid.length).map g, ?_, by simp, ?_⟩
  · unfold simulate_multiple_durations
    refine mapM_ok_of_forall _ _ _ fun i hi => ?_
    have hiD : i < years_grid.length := List.mem_range.mp hi
    rw [hsim i]
    show compute_summary_stats (ret i) = .ok (g i)
    exact (hstat i hiD).1
  · intro i hi
    refine ⟨ret i, hsim i, ?_⟩
    rw [getD_map_range g years_grid.length i hi]
    exact ⟨(hstat i hi).1, (hstat i hi).2⟩

/-- Claim C7 witness: the theorem instantiated on the 253-row constant
table with the one-entry duration grid, one trial per duration drawn at
index 0. -/
theorem claim_C7_witness :
    (1 ≤ 1 ∧
     (∀ i, i < ([1] : List ℕ).length → drawsValid flatTable ([1].getD i 0) 1 [0]) ∧
     weightsOkB flatTable none = true) ∧
    (∃ rows : List (ℝ × ℝ × ℝ × ℝ × ℝ),
      simulate_multiple_durations flatTable [1] 1 none (fun _ => [0]) = .ok rows ∧
      rows.length = ([1] : List ℕ).length ∧
      ∀ i, i < ([1] : List ℕ).length →
        ∃ returns_list : List ℝ,
          simulate_multiple_investments flatTable ([1].getD i 0) 1 none [0]
            = .ok returns_list ∧
          compute_summary_stats returns_list = .ok (rows.getD i (0, 0, 0, 0, 0)) ∧
          0 ≤ (rows.getD i (0, 0, 0, 0, 0)).2.2.2.1 ∧
          (rows.getD i (0, 0, 0, 0, 0)).2.2.2.1 ≤ 1 ∧
          0 ≤ (rows.getD i (0, 0, 0, 0, 0)).2.2.2.2 ∧
          (rows.getD i (0, 0, 0, 0, 0)).2.2.2.2 ≤ 1) :=
  ⟨⟨le_refl 1, fun i hi => by rw [Nat.lt_one_iff.mp hi]; decide, rfl⟩,
   claim_C7 flatTable [1] 1 none (fun _ => [0]) (le_refl 1)
     (fun i hi => by rw [Nat.lt_one_iff.mp hi]; decide) rfl⟩

end MonteCarloPAC
